import Mathlib

/-!
Shallow embedding of the django-rest-form-fields library: the field classes of
src/django_rest_form_fields/fields.py together with compatibility.to_timestamp.
Each field's end-to-end clean pipeline (the Django Field.clean sequence
to_python, validate, run_validators, composed through the method resolution
order of the mixins EmptyStringFixMixing and InitialFixMixin) is inlined into
one executable Lean function per field type.  External collaborators
(the Django base classes, the Python builtins bool, int and str methods,
json.loads, re.match on the concrete patterns appearing in the source, and
os.path.splitext) are modelled by executable definitions documented at their
declaration.  Machine floats are modelled at integer second granularity for
timestamps, which is the granularity all verified properties live at.
-/

deriving instance DecidableEq for Except

namespace DjangoRestFormFields

/-- One violation reported by the Django MinValueValidator or MaxValueValidator
attached to IntegerField and FloatField; the bound is inclusive. -/
inductive RangeViolation
  | min (limit : Int)
  | max (limit : Int)
deriving DecidableEq, Repr

/-- Error taxonomy of the library: each constructor corresponds to one raise
site reachable from the clean pipelines embedded in this file. -/
inductive Err
  /-- ValidationError with code required (EmptyStringFixMixing.validate,
  Django Field.validate). -/
  | required
  /-- Django invalid-value errors from to_python of the base field. -/
  | invalid (msg : String)
  /-- Django run_validators error collecting every violated bound. -/
  | range (errs : List RangeViolation)
  /-- RegexField.validate mismatch error; carries the configured pattern. -/
  | patternMismatch (pat : String)
  /-- JsonField.to_python: the string could not be parsed as JSON. -/
  | jsonNotParsed
  /-- ArrayField.to_python: a JSON object arrived where an array was expected. -/
  | objectNotArray
  /-- ArrayField.to_python: some comma-separated item failed the integer parse. -/
  | arrayOfIntegers
  /-- JsonField.validate: jsonschema validation failed. -/
  | schemaViolation (msg : String)
  /-- ColorField.validate: the value is not six lowercase hex characters. -/
  | colorInvalid (value : String)
  /-- HexField.validate message (present in the source but, as proved below,
  unreachable for every provided string). -/
  | hexCharacters
  /-- TimestampField.validate: value lies in the future and in_future is off. -/
  | futureTime
  /-- Django forms.FileField.to_python: empty file rejected when
  allow_empty_file is off. -/
  | emptyFile
  /-- exceptions.FileTypeError: carries the actual extension and allow-list. -/
  | fileType (ext : String) (allowed : List String)
  /-- exceptions.FileSizeError: carries the configured limit and actual size. -/
  | fileSize (limit : Nat) (actual : Nat)
deriving DecidableEq, Repr

/-! Python string primitives, modelled as structural recursions so that every
proof below can be checked by kernel reduction. -/

/-- Characters stripped by the Python str.strip builtin with no argument. -/
def isPyWhitespace (c : Char) : Bool :=
  c = ' ' || c = '\t' || c = '\n' || c = '\r' || c = '\x0b' || c = '\x0c'

/-- Models the Python str.strip builtin: removes leading and trailing
whitespace. -/
def pyStrip (s : String) : String :=
  String.mk (((s.data.dropWhile isPyWhitespace).reverse.dropWhile isPyWhitespace).reverse)

/-- Models the Python str.lower builtin on the ASCII range. -/
def pyLower (s : String) : String :=
  String.mk (s.data.map Char.toLower)

/-- Boolean prefix test on character lists (helper for the startswith and
endswith models). -/
def leadsWith : List Char → List Char → Bool
  | [], _ => true
  | _ :: _, [] => false
  | p :: ps, c :: cs => p = c && leadsWith ps cs

/-- Models the Python str.startswith builtin. -/
def pyStarts (s pre : String) : Bool := leadsWith pre.data s.data

/-- Models the Python str.endswith builtin. -/
def pyEnds (s suf : String) : Bool := leadsWith suf.data.reverse s.data.reverse

/-- Helper for the str.split model: accumulates the current piece (reversed). -/
def pySplitCommaAux : List Char → List Char → List String
  | [], acc => [String.mk acc.reverse]
  | c :: cs, acc =>
    if c = ',' then String.mk acc.reverse :: pySplitCommaAux cs []
    else pySplitCommaAux cs (c :: acc)

/-- Models the Python str.split builtin with separator comma, as used by
ArrayField.to_python. -/
def pySplitComma (s : String) : List String := pySplitCommaAux s.data []

/-! The boolean field (fields.py lines 361 to 380). -/

/-- Universe of raw request values fed to RestBooleanField: absence, a string,
a number, a boolean or a list. -/
inductive RawValue
  | none
  | str (s : String)
  | int (n : Int)
  | boolean (b : Bool)
  | list (xs : List RawValue)

/-- Models the Python bool builtin on the raw value universe: empty string,
zero, false and the empty list are falsy, everything else is truthy. -/
def RawValue.truthy : RawValue → Bool
  | RawValue.none => false
  | RawValue.str s => s ≠ ""
  | RawValue.int n => n ≠ 0
  | RawValue.boolean b => b
  | RawValue.list [] => false
  | RawValue.list (_ :: _) => true

/-- The test of fields.py line 376: the value is a string whose lowercase form
is one of false, 0 or the empty string. -/
def isFalseString : RawValue → Bool
  | RawValue.str s => pyLower s = "false" || pyLower s = "0" || pyLower s = ""
  | _ => false

/-- Field definition data of RestBooleanField (required and initial are the
Django Field constructor arguments used by the embedded pipeline). -/
structure RestBooleanField where
  required : Bool := true
  initial : Option Bool := Option.none

/-- RestBooleanField.to_python (fields.py lines 372 to 380): None stays None,
a string whose lowercase form is false, 0 or empty becomes False, anything
else is coerced with the bool builtin. -/
def restBooleanToPython : RawValue → Option Bool
  | RawValue.none => Option.none
  | v => if isFalseString v then some false else some v.truthy

/-- End-to-end clean of RestBooleanField.  The None branch is
EmptyStringFixMixing.clean (lines 58 to 70): to_python(None) is None,
validate(None) raises required when the field is required (lines 72 to 81),
otherwise the configured initial is returned.  The other branch is the Django
Field.clean sequence with empty_values equal to the singleton None list. -/
def restBooleanClean (f : RestBooleanField) (value : RawValue) :
    Except Err (Option Bool) :=
  match value with
  | RawValue.none =>
    if f.required then Except.error Err.required else Except.ok f.initial
  | v =>
    match restBooleanToPython v with
    | Option.none =>
      -- Field.validate: a coerced None is in empty_values; required raises,
      -- otherwise the (None) value is returned unchanged.
      if f.required then Except.error Err.required else Except.ok Option.none
    | some b => Except.ok (some b)

/-! The character field (fields.py lines 84 to 90).  Raw values of the
string-based fields are modelled as Option String: absence or a string.
CharField is embedded with its default constructor arguments (strip on,
no max_length, no min_length), which is how every string-based field of the
library instantiates it. -/

/-- Field definition data of RestCharField. -/
structure RestCharField where
  required : Bool := true
  initial : Option String := Option.none

/-- End-to-end clean of RestCharField: the None branch is
EmptyStringFixMixing.clean returning the initial after the required check;
a provided string goes through CharField.to_python, which stringifies and
strips it (strip defaults to on). -/
def restCharClean (f : RestCharField) (value : Option String) :
    Except Err (Option String) :=
  match value with
  | Option.none =>
    if f.required then Except.error Err.required else Except.ok f.initial
  | some s => Except.ok (some (pyStrip s))

/-! The regex field (fields.py lines 93 to 118).  RegexField.validate stores
the match object in the _match attribute of the field instance, so its clean
is embedded as explicit state passing: it returns the updated field definition
next to the cleaned value. -/

/-- Field definition data of RegexField.  The regex component models the
compiled pattern applied through re.match: it returns the matched text, or
nothing when the pattern does not match at the start of the string.  It is
absent when no (or a falsy empty) pattern was configured.  The pat component
is the textual pattern interpolated into the mismatch error message, and
matchCache is the _match attribute written by validate. -/
structure RegexField where
  required : Bool := true
  initial : Option String := Option.none
  regex : Option (String → Option String) := Option.none
  pat : String := ""
  matchCache : Option String := Option.none

/-- RegexField.validate (fields.py lines 109 to 114): after the inherited
required check (handled by the callers below), a provided value is matched
against the configured pattern; the match is stored in _match and a mismatch
raises.  Returns the updated field next to the optional error. -/
def regexFieldValidate (f : RegexField) (value : Option String) :
    RegexField × Option Err :=
  match value, f.regex with
  | some s, some m =>
    let r := m s
    ({ f with matchCache := r },
     if r.isSome then Option.none else some (Err.patternMismatch f.pat))
  | _, _ => (f, Option.none)

/-- End-to-end clean of RegexField.  The None branch runs validate(None),
which skips the pattern, and returns the initial after the required check;
a provided string is stripped by CharField.to_python and then validated. -/
def regexFieldClean (f : RegexField) (value : Option String) :
    RegexField × Except Err (Option String) :=
  match value with
  | Option.none =>
    if f.required then (f, Except.error Err.required)
    else (f, Except.ok f.initial)
  | some s =>
    let t := pyStrip s
    let fe := regexFieldValidate f (some t)
    match fe.2 with
    | some e => (fe.1, Except.error e)
    | Option.none => (fe.1, Except.ok (some t))

/-- Lowercase hexadecimal digit, the character class of the color and UUID
patterns in the source. -/
def isLowerHexDigit (c : Char) : Bool :=
  c.isDigit || (97 ≤ c.toNat && c.toNat ≤ 102)

/-- Consumes exactly n lowercase hex digits from the character list. -/
def hexRun : Nat → List Char → Option (List Char)
  | 0, cs => some cs
  | _ + 1, [] => Option.none
  | n + 1, c :: cs => if isLowerHexDigit c then hexRun n cs else Option.none

/-- Consumes hyphen-separated groups of lowercase hex digits with the given
group lengths. -/
def uuidGroups : List Nat → List Char → Option (List Char)
  | [], cs => some cs
  | [n], cs => hexRun n cs
  | n :: rest, cs =>
    match hexRun n cs with
    | some ( '-' :: cs2) => uuidGroups rest cs2
    | _ => Option.none

/-- Models re.match of the concrete UUIDField pattern
(five groups of 8, 4, 4, 4 and 12 lowercase hex digits separated by hyphens,
anchored at both ends): true exactly when the whole string matches. -/
def uuidRegexAccepts (s : String) : Bool :=
  match uuidGroups [8, 4, 4, 4, 12] s.data with
  | some [] => true
  | _ => false

/-- The pattern string set by UUIDField.__init__ (fields.py line 606). -/
def uuidPatternText : String :=
  "^[0-9a-f]\x7b8\x7d-[0-9a-f]\x7b4\x7d-[0-9a-f]\x7b4\x7d-[0-9a-f]\x7b4\x7d-[0-9a-f]\x7b12\x7d$"

/-- UUIDField (fields.py lines 600 to 607): a RegexField whose pattern is
fixed by the constructor. -/
def mkUUIDField (required : Bool) (initial : Option String) : RegexField :=
  { required := required, initial := initial,
    regex := some (fun s => if uuidRegexAccepts s then some s else Option.none),
    pat := uuidPatternText }

/-! The color field (fields.py lines 403 to 411). -/

/-- Field definition data of ColorField. -/
structure ColorField where
  required : Bool := true
  initial : Option String := Option.none

/-- Models re.match of the concrete ColorField pattern (exactly six lowercase
hex characters, anchored at both ends). -/
def colorRegexAccepts (s : String) : Bool :=
  s.data.length = 6 && s.data.all isLowerHexDigit

/-- End-to-end clean of ColorField.  ColorField.validate (lines 408 to 411)
runs the pattern only when the coerced value is truthy, so the empty string
skips the check entirely. -/
def colorFieldClean (f : ColorField) (value : Option String) :
    Except Err (Option String) :=
  match value with
  | Option.none =>
    if f.required then Except.error Err.required else Except.ok f.initial
  | some s =>
    let t := pyStrip s
    if t ≠ "" && !colorRegexAccepts t then Except.error (Err.colorInvalid t)
    else Except.ok (some t)

/-! The hex field (fields.py lines 589 to 597). -/

/-- Field definition data of HexField. -/
structure HexField where
  required : Bool := true
  initial : Option String := Option.none

/-- Models re.match of the HexField pattern, a Kleene star over lowercase
letters and digits with no anchor at either end: the star matches the longest
such prefix, and in particular it matches the empty prefix of every string,
so a (possibly empty) match object is always returned. -/
def hexStarMatch (s : String) : Option String :=
  some (String.mk (s.data.takeWhile (fun c => c.isLower || c.isDigit)))

/-- End-to-end clean of HexField.  HexField.validate (lines 594 to 597)
raises only when re.match returns no match. -/
def hexFieldClean (f : HexField) (value : Option String) :
    Except Err (Option String) :=
  match value with
  | Option.none =>
    if f.required then Except.error Err.required else Except.ok f.initial
  | some s =>
    let t := pyStrip s
    if (hexStarMatch t).isSome then Except.ok (some t)
    else Except.error Err.hexCharacters

/-! The integer field (fields.py lines 152 to 191).  Raw values are modelled
as Option Int: absence or an already-numeric value (the string-to-int parse of
Django IntegerField.to_python is outside every claim). -/

/-- Field definition data of RestIntegerField, with the optional inclusive
bounds that Django IntegerField turns into MinValueValidator and
MaxValueValidator instances. -/
structure RestIntegerField where
  required : Bool := true
  initial : Option Int := Option.none
  min_value : Option Int := Option.none
  max_value : Option Int := Option.none

/-- Django run_validators for IntegerField: every violated bound contributes
one error, and all collected errors are raised together.  It is not invoked
on empty values. -/
def intRunValidators (f : RestIntegerField) (n : Int) : List RangeViolation :=
  (match f.min_value with
   | some mn => if n < mn then [RangeViolation.min mn] else []
   | Option.none => []) ++
  (match f.max_value with
   | some mx => if n > mx then [RangeViolation.max mx] else []
   | Option.none => [])

/-- End-to-end clean of RestIntegerField.  The None branch is Django
Field.clean on an empty value (validate raises required, run_validators is
skipped) followed by InitialFixMixin.clean (fields.py lines 38 to 40)
substituting the initial; a provided number runs the bound validators. -/
def restIntegerClean (f : RestIntegerField) (value : Option Int) :
    Except Err (Option Int) :=
  match value with
  | Option.none =>
    if f.required then Except.error Err.required else Except.ok f.initial
  | some n =>
    match intRunValidators f n with
    | [] => Except.ok (some n)
    | errs => Except.error (Err.range errs)

/-- PositiveIntegerField.__init__ (fields.py lines 166 to 176): min_value
defaults to 1, or to 0 when with_zero is set; an explicitly passed min_value
wins over the default. -/
def mkPositiveIntegerField (with_zero : Bool) (min_value max_value : Option Int)
    (required : Bool) (initial : Option Int) : RestIntegerField :=
  { required := required, initial := initial,
    min_value := some (min_value.getD (if with_zero then 0 else 1)),
    max_value := max_value }

/-! Timestamps (fields.py lines 194 to 236 and compatibility.py lines 12
to 24), at integer second granularity. -/

/-- The only timezone the embedded code paths construct. -/
inductive TZInfo
  | utc
deriving DecidableEq, Repr

/-- A Python datetime reduced to what the embedded code observes: the
wall-clock instant as seconds since epoch read in UTC, and the tzinfo
attribute (absent for a naive datetime). -/
structure PyDatetime where
  secs : Int
  tzinfo : Option TZInfo
deriving DecidableEq, Repr

/-- Models django.utils.timezone.make_aware for UTC: attaches the timezone to
a naive datetime without moving the wall clock. -/
def make_aware (dt : PyDatetime) (tz : TZInfo) : PyDatetime :=
  { dt with tzinfo := some tz }

/-- Models datetime.astimezone restricted to the UTC-to-UTC case occurring in
the source: the instant is unchanged. -/
def astimezone (dt : PyDatetime) (tz : TZInfo) : PyDatetime :=
  { dt with tzinfo := some tz }

/-- Models datetime.utcfromtimestamp: a naive datetime holding the given
instant. -/
def utcfromtimestamp (ts : Int) : PyDatetime :=
  { secs := ts, tzinfo := Option.none }

/-- compatibility.to_timestamp (compatibility.py lines 12 to 24) at second
granularity: a naive datetime is made aware in UTC, an aware one is converted
to UTC, and the epoch seconds are returned. -/
def to_timestamp (dt : PyDatetime) : Int :=
  let dta :=
    if dt.tzinfo.isNone then make_aware dt TZInfo.utc
    else astimezone dt TZInfo.utc
  dta.secs

/-- The initial argument accepted by TimestampField.__init__: an int (floats
are modelled at second granularity) or a datetime instance. -/
inductive TimestampInitial
  | num (n : Int)
  | dt (d : PyDatetime)

/-- Field definition data of TimestampField after construction: the datetime
form of the initial has already been converted with to_timestamp, and the
bounds are pinned to 0 and 2147483647 (fields.py line 219). -/
structure TimestampField where
  required : Bool := true
  initial : Option Int := Option.none
  in_future : Bool := true

/-- TimestampField.__init__ (fields.py lines 199 to 219): a datetime initial
is converted to its timestamp. -/
def mkTimestampField (required : Bool) (initial : Option TimestampInitial)
    (in_future : Bool) : TimestampField :=
  { required := required,
    initial := initial.map (fun i =>
      match i with
      | TimestampInitial.num n => n
      | TimestampInitial.dt d => to_timestamp d),
    in_future := in_future }

/-- The run_validators step of the FloatField underlying TimestampField, with
the pinned bounds 0 and 2147483647. -/
def timestampRunValidators (n : Int) : List RangeViolation :=
  (if n < 0 then [RangeViolation.min 0] else []) ++
  (if n > 2147483647 then [RangeViolation.max 2147483647] else [])

/-- End-to-end clean of TimestampField (fields.py lines 221 to 236).
The base RestFloatField.clean runs first: required check and initial
substitution on None, TimestampField.validate (the not-in-future comparison
against to_timestamp(now()), passed here as now_ts) and then the bound
validators on a provided number.  The resulting number is finally converted:
0 maps to the epoch datetime built explicitly at line 225, any other number
through utcfromtimestamp plus make_aware. -/
def timestampClean (f : TimestampField) (value : Option Int) (now_ts : Int) :
    Except Err (Option PyDatetime) :=
  let base : Except Err (Option Int) :=
    match value with
    | Option.none =>
      if f.required then Except.error Err.required else Except.ok f.initial
    | some n =>
      if !f.in_future && n > now_ts then Except.error Err.futureTime
      else
        match timestampRunValidators n with
        | [] => Except.ok (some n)
        | errs => Except.error (Err.range errs)
  match base with
  | Except.error e => Except.error e
  | Except.ok Option.none => Except.ok Option.none
  | Except.ok (some v) =>
    if v = 0 then Except.ok (some { secs := 0, tzinfo := some TZInfo.utc })
    else Except.ok (some (make_aware (utcfromtimestamp v) TZInfo.utc))

/-! JSON values and a model of json.loads (the Python standard library parser,
an external collaborator of JsonField and ArrayField).  The model covers the
JSON sublanguage exercised by the embedded fields: null, booleans, integer
numbers, escape-free strings, arrays and objects, with the usual whitespace. -/

/-- JSON values. -/
inductive Json
  | null
  | jbool (b : Bool)
  | jint (n : Int)
  | jstr (s : String)
  | jarr (items : List Json)
  | jobj (entries : List (String × Json))

/-- Drops leading JSON whitespace. -/
def wsDropped : List Char → List Char
  | c :: cs =>
    if c = ' ' || c = '\t' || c = '\n' || c = '\r' then wsDropped cs else c :: cs
  | [] => []

/-- Splits the leading run of ASCII digits from the rest. -/
def digitSpan : List Char → List Char × List Char
  | c :: cs =>
    if c.isDigit then
      let p := digitSpan cs
      (c :: p.1, p.2)
    else ([], c :: cs)
  | [] => ([], [])

/-- Numeric value of a digit run. -/
def digitsToNat (ds : List Char) : Nat :=
  ds.foldl (fun a c => a * 10 + (c.toNat - 48)) 0

/-- Body of a JSON string literal after the opening quote; escape sequences
are outside the modelled sublanguage. -/
def jsonStrChars : List Char → Option (List Char × List Char)
  | '"' :: cs => some ([], cs)
  | '\\' :: _ => Option.none
  | c :: cs => (jsonStrChars cs).map (fun p => (c :: p.1, p.2))
  | [] => Option.none

mutual

/-- Recursive-descent JSON value parser; the fuel argument bounds recursion
and strictly exceeds the input length at the top-level call. -/
def jsonVal : Nat → List Char → Option (Json × List Char)
  | 0, _ => Option.none
  | fuel + 1, cs =>
    match wsDropped cs with
    | [] => Option.none
    | c :: rest =>
      if c = '[' then
        match wsDropped rest with
        | ']' :: rest2 => some (Json.jarr [], rest2)
        | cs2 =>
          match jsonArrItems fuel cs2 with
          | some (items, rest2) => some (Json.jarr items, rest2)
          | Option.none => Option.none
      else if c = '\x7b' then
        match wsDropped rest with
        | '\x7d' :: rest2 => some (Json.jobj [], rest2)
        | cs2 =>
          match jsonObjItems fuel cs2 with
          | some (entries, rest2) => some (Json.jobj entries, rest2)
          | Option.none => Option.none
      else if c = '"' then
        match jsonStrChars rest with
        | some (body, rest2) => some (Json.jstr (String.mk body), rest2)
        | Option.none => Option.none
      else if c = '-' then
        match digitSpan rest with
        | ([], _) => Option.none
        | (ds, rest2) => some (Json.jint (-(digitsToNat ds : Int)), rest2)
      else if c.isDigit then
        match digitSpan (c :: rest) with
        | (ds, rest2) => some (Json.jint (digitsToNat ds : Int), rest2)
      else if leadsWith [ 't', 'r', 'u', 'e'] (c :: rest) then
        some (Json.jbool true, (c :: rest).drop 4)
      else if leadsWith [ 'f', 'a', 'l', 's', 'e'] (c :: rest) then
        some (Json.jbool false, (c :: rest).drop 5)
      else if leadsWith [ 'n', 'u', 'l', 'l'] (c :: rest) then
        some (Json.null, (c :: rest).drop 4)
      else Option.none

/-- Comma-separated array items up to the closing bracket. -/
def jsonArrItems : Nat → List Char → Option (List Json × List Char)
  | 0, _ => Option.none
  | fuel + 1, cs =>
    match jsonVal fuel cs with
    | some (v, rest) =>
      match wsDropped rest with
      | ',' :: rest2 =>
        match jsonArrItems fuel rest2 with
        | some (vs, rest3) => some (v :: vs, rest3)
        | Option.none => Option.none
      | ']' :: rest2 => some ([v], rest2)
      | _ => Option.none
    | Option.none => Option.none

/-- Comma-separated object entries up to the closing brace. -/
def jsonObjItems : Nat → List Char → Option (List (String × Json) × List Char)
  | 0, _ => Option.none
  | fuel + 1, cs =>
    match wsDropped cs with
    | '"' :: rest =>
      match jsonStrChars rest with
      | some (key, rest1) =>
        match wsDropped rest1 with
        | ':' :: rest2 =>
          match jsonVal fuel rest2 with
          | some (v, rest3) =>
            match wsDropped rest3 with
            | ',' :: rest4 =>
              match jsonObjItems fuel rest4 with
              | some (es, rest5) => some ((String.mk key, v) :: es, rest5)
              | Option.none => Option.none
            | '\x7d' :: rest4 => some ([(String.mk key, v)], rest4)
            | _ => Option.none
          | Option.none => Option.none
        | _ => Option.none
      | Option.none => Option.none
    | _ => Option.none

end

/-- Models json.loads on the sublanguage above: the whole input, up to
trailing whitespace, must parse as one JSON value. -/
def json_loads (s : String) : Option Json :=
  match jsonVal (s.data.length + 1) s.data with
  | some (v, rest) =>
    match wsDropped rest with
    | [] => some v
    | _ :: _ => Option.none
  | Option.none => Option.none

/-! The array field (fields.py lines 482 to 536), on top of JsonField
(lines 440 to 479). -/

/-- The item schema forms given to ArrayField in the embedded claims: the
integer item type is the one ArrayField.to_python inspects. -/
inductive ItemType
  | integer
deriving DecidableEq, Repr

/-- Field definition data of ArrayField after __init__ (lines 489 to 512)
assembled the json_schema dict: type array, minItems, optional maxItems and
optional items. -/
structure ArrayField where
  required : Bool := true
  initial : Option Json := Option.none
  item_schema : Option ItemType := Option.none
  min_items : Nat := 0
  max_items : Option Nat := Option.none

/-- ArrayField.__init__: maxItems enters the schema only when max_items is
truthy, so an explicit 0 is dropped. -/
def mkArrayField (required : Bool) (initial : Option Json)
    (item_schema : Option ItemType) (min_items : Nat) (max_items : Option Nat) :
    ArrayField :=
  { required := required, initial := initial, item_schema := item_schema,
    min_items := min_items,
    max_items := match max_items with
      | some 0 => Option.none
      | m => m }

/-- Models the Python int builtin on strings: optional surrounding whitespace,
an optional sign, then one or more ASCII digits. -/
def pyIntOfString (s : String) : Option Int :=
  match (pyStrip s).data with
  | '-' :: ds =>
    if ds ≠ [] && ds.all Char.isDigit then some (-(digitsToNat ds : Int))
    else Option.none
  | '+' :: ds =>
    if ds ≠ [] && ds.all Char.isDigit then some ((digitsToNat ds : Int))
    else Option.none
  | ds =>
    if ds ≠ [] && ds.all Char.isDigit then some ((digitsToNat ds : Int))
    else Option.none

/-- Maps the Python int builtin over every comma-separated item, failing as a
whole when any item fails. -/
def mapPyInt : List String → Option (List Int)
  | [] => some []
  | s :: rest =>
    match pyIntOfString s, mapPyInt rest with
    | some n, some ns => some (n :: ns)
    | _, _ => Option.none

/-- Universe of raw request values fed to ArrayField: absence, a string, an
already-decoded list or an already-decoded mapping. -/
inductive ArrayRaw
  | none
  | str (s : String)
  | list (items : List Json)
  | dict (entries : List (String × Json))

/-- ArrayField.to_python (fields.py lines 514 to 536).  None and lists pass
through (JsonField.to_python); a dict is rejected as an object; a string that
starts with an opening or ends with a closing bracket is handed to json.loads
(JsonField.to_python, lines 457 to 466); a braced string is rejected as an
object; any other string is split on commas, with each item pushed through
the integer parse when the item schema declares integer items. -/
def arrayToPython (f : ArrayField) (value : ArrayRaw) : Except Err (Option Json) :=
  match value with
  | ArrayRaw.none => Except.ok Option.none
  | ArrayRaw.list items => Except.ok (some (Json.jarr items))
  | ArrayRaw.dict _ => Except.error Err.objectNotArray
  | ArrayRaw.str s =>
    if pyStarts s "[" || pyEnds s "]" then
      match json_loads s with
      | some j => Except.ok (some j)
      | Option.none => Except.error Err.jsonNotParsed
    else if pyStarts s "\x7b" && pyEnds s "\x7d" then
      Except.error Err.objectNotArray
    else
      match f.item_schema with
      | some ItemType.integer =>
        match mapPyInt (pySplitComma s) with
        | some ns => Except.ok (some (Json.jarr (ns.map Json.jint)))
        | Option.none => Except.error Err.arrayOfIntegers
      | Option.none =>
        Except.ok (some (Json.jarr ((pySplitComma s).map Json.jstr)))

/-- Does a JSON value satisfy the item schema?  The jsonschema integer type
accepts exactly integer numbers. -/
def jsonItemOk : ItemType → Json → Bool
  | ItemType.integer, Json.jint _ => true
  | ItemType.integer, _ => false

/-- Models jsonschema.validate for the schema assembled by
ArrayField.__init__: the value must be an array, its length must respect
minItems and any configured maxItems, and every element must satisfy any
configured item schema. -/
def arraySchemaValidate (f : ArrayField) (j : Json) : Option Err :=
  match j with
  | Json.jarr items =>
    if items.length < f.min_items then some (Err.schemaViolation "minItems")
    else
      match f.max_items with
      | some mx =>
        if items.length > mx then some (Err.schemaViolation "maxItems")
        else
          match f.item_schema with
          | some t =>
            if items.all (jsonItemOk t) then Option.none
            else some (Err.schemaViolation "items")
          | Option.none => Option.none
      | Option.none =>
        match f.item_schema with
        | some t =>
          if items.all (jsonItemOk t) then Option.none
          else some (Err.schemaViolation "items")
        | Option.none => Option.none
  | _ => some (Err.schemaViolation "type")

/-- End-to-end clean of ArrayField.  The None branch is
EmptyStringFixMixing.clean: validate(None) performs the required check and
JsonField.validate skips the schema on None, then the initial is returned.
A provided value is coerced by ArrayField.to_python and validated against the
assembled schema (JsonField.validate, lines 468 to 479). -/
def arrayFieldClean (f : ArrayField) (value : ArrayRaw) : Except Err (Option Json) :=
  match value with
  | ArrayRaw.none =>
    if f.required then Except.error Err.required else Except.ok f.initial
  | v =>
    match arrayToPython f v with
    | Except.error e => Except.error e
    | Except.ok Option.none =>
      if f.required then Except.error Err.required else Except.ok Option.none
    | Except.ok (some j) =>
      match arraySchemaValidate f j with
      | some e => Except.error e
      | Option.none => Except.ok (some j)

/-! The file field (fields.py lines 610 to 646), on top of Django
forms.FileField. -/

/-- What the validation pipeline observes of an uploaded file handle: its name
and its byte size (section 6 of the specification: ownership stays with the
caller and contents are never read). -/
structure UploadedFile where
  name : String
  size : Nat
deriving DecidableEq, Repr

/-- Field definition data of FileField.  allow_empty_file is the Django
forms.FileField constructor argument, off by default. -/
structure FileField where
  required : Bool := true
  initial : Option UploadedFile := Option.none
  max_size : Option Nat := Option.none
  valid_extensions : Option (List String) := Option.none
  allow_empty_file : Bool := false

/-- Models the extension part of os.path.splitext, already without its
leading dot: the characters after the last dot of the final path component,
where a dot only counts when a non-dot character precedes it in that
component. -/
def splitextExt (p : String) : String :=
  let base := (p.data.reverse.takeWhile (fun c => c != '/')).reverse
  let revExt := base.reverse.takeWhile (fun c => c != '.')
  if revExt.length = base.length then ""
  else
    let stem := base.take (base.length - revExt.length - 1)
    if stem.all (fun c => c = '.') then "" else String.mk revExt.reverse

/-- End-to-end clean of FileField.  The repository clean (lines 644 to 646)
forwards the configured initial into Django forms.FileField.clean, which
returns the initial outright for an absent value; otherwise Django
Field.clean runs: forms.FileField.to_python rejects a nameless handle and,
unless allow_empty_file is set, a zero-size one; the repository validate
(lines 633 to 642) then checks the lowercased name extension against the
allow-list and the size against the limit, in that order. -/
def fileFieldClean (f : FileField) (data : Option UploadedFile) :
    Except Err (Option UploadedFile) :=
  match data with
  | Option.none =>
    match f.initial with
    | some i => Except.ok (some i)
    | Option.none =>
      if f.required then Except.error Err.required else Except.ok Option.none
  | some file =>
    if file.name = "" then Except.error (Err.invalid "invalid")
    else if !f.allow_empty_file && file.size = 0 then Except.error Err.emptyFile
    else
      let extCheck : Option Err :=
        match f.valid_extensions with
        | some exts =>
          let ext := pyLower (splitextExt file.name)
          if exts.contains ext then Option.none
          else some (Err.fileType ext exts)
        | Option.none => Option.none
      match extCheck with
      | some e => Except.error e
      | Option.none =>
        match f.max_size with
        | some limit =>
          if file.size > limit then Except.error (Err.fileSize limit file.size)
          else Except.ok (some file)
        | Option.none => Except.ok (some file)

/-! Definitions written from the words of the specification, for comparison
with the behaviour embedded from the source. -/

/-- Hexadecimal digit in either case. -/
def isHexDigitAnyCase (c : Char) : Bool :=
  c.isDigit || (97 ≤ c.toNat && c.toNat ≤ 102) || (65 ≤ c.toNat && c.toNat ≤ 70)

/-- Modelled from the spec: a syntactically valid UUID string in the usual
hyphenated sense of RFC 4122, namely five groups of 8, 4, 4, 4 and 12
hexadecimal digits where both uppercase and lowercase digits are allowed.
Written from the words of the claim about the UUID field, to be compared with
the lowercase-only pattern the source installs. -/
def isSyntacticallyValidUUID (s : String) : Bool :=
  let cs := s.data
  decide (cs.length = 36) &&
  (List.range 36).all (fun i =>
    if i = 8 || i = 13 || i = 18 || i = 23 then cs.getD i ' ' = '-'
    else isHexDigitAnyCase (cs.getD i ' '))

/-! Concrete field instances and inputs used by the closed statements below. -/

/-- A regex field configured with the pattern that matches every string
(re.match of the pattern dot-star succeeds on any input and spans all of it),
as a minimal setting in which validate writes the match cache. -/
def dotStarField : RegexField :=
  { required := true, regex := some (fun s => some s), pat := ".*" }

/-- The file handle of the case-insensitivity scenario of the specification. -/
def upperCaseFile : UploadedFile := { name := "TEST.PDF", size := 4 }

/-- A pdf file handle of size zero. -/
def emptyPdfFile : UploadedFile := { name := "test.pdf", size := 0 }

/-- A file field with a pdf-only allow-list and a size limit. -/
def pdfFileField : FileField :=
  { required := true, valid_extensions := some ["pdf"], max_size := some 100 }

/-- A file field that is required and also carries an initial file. -/
def requiredWithInitialFileField : FileField :=
  { required := true, initial := some { name := "test.txt", size := 4 } }

/-- An uppercase variant of a UUID string: syntactically a UUID, but not in
the lowercase canonical form the source pattern demands. -/
def upperUUIDString : String := "AAAAAAAA-AAAA-AAAA-AAAA-AAAAAAAAAAAA"

/-- A lowercase canonical UUID string. -/
def lowerUUIDString : String := "12345678-1234-5678-9abc-123456789abc"

/-- C2: the boolean field maps the strings false, 0 and the empty string
(case-insensitively) to false, maps an absent value to the Required error when
required and to none otherwise, and coerces every other provided value with
the general truthiness rule, so in particular the strings true, 1 and
anything_else clean to true. -/
theorem restBooleanField_coercion :
    (restBooleanClean { required := true } (RawValue.str "true") = Except.ok (some true)) ∧
    (restBooleanClean { required := true } (RawValue.str "1") = Except.ok (some true)) ∧
    (restBooleanClean { required := true } (RawValue.str "false") = Except.ok (some false)) ∧
    (restBooleanClean { required := true } (RawValue.str "0") = Except.ok (some false)) ∧
    (restBooleanClean { required := true } (RawValue.str "FaLsE") = Except.ok (some false)) ∧
    (restBooleanClean { required := true } (RawValue.str "") = Except.ok (some false)) ∧
    (restBooleanClean { required := true } (RawValue.str "anything_else") = Except.ok (some true)) ∧
    (restBooleanClean { required := true } RawValue.none = Except.error Err.required) ∧
    (restBooleanClean { required := false } RawValue.none = Except.ok Option.none) ∧
    (∀ v : RawValue, v ≠ RawValue.none → isFalseString v = false →
      restBooleanClean { required := true } v = Except.ok (some v.truthy)) := by
  refine ⟨by decide, by decide, by decide, by decide, by decide, by decide,
    by decide, by decide, by decide, ?_⟩
  intro v hne hfs
  cases v with
  | none => exact absurd rfl hne
  | str s => simp [restBooleanClean, restBooleanToPython, hfs]
  | int n => simp [restBooleanClean, restBooleanToPython, hfs]
  | boolean b => simp [restBooleanClean, restBooleanToPython, hfs]
  | list xs => simp [restBooleanClean, restBooleanToPython, hfs]

/-- Witness for C2: the universal part of the coercion statement applied to
the concrete non-false-string input anything_else. -/
theorem restBooleanField_coercion_witness :
    (RawValue.str "anything_else" ≠ RawValue.none) ∧
    isFalseString (RawValue.str "anything_else") = false ∧
    restBooleanClean { required := true } (RawValue.str "anything_else") =
      Except.ok (some true) := by
  refine ⟨fun hc => RawValue.noConfusion hc, by decide, ?_⟩
  simpa using restBooleanField_coercion.2.2.2.2.2.2.2.2.2
    (RawValue.str "anything_else") (fun hc => RawValue.noConfusion hc) (by decide)

/-- C3: for every timezone-aware UTC datetime whose epoch seconds lie in the
32-bit range, cleaning its timestamp recovers the datetime exactly, and the
boundary input 0 cleans to the aware UTC epoch datetime. -/
theorem timestampField_roundTrip :
    (∀ (d : PyDatetime) (now_ts : Int), d.tzinfo = some TZInfo.utc →
      0 ≤ d.secs → d.secs ≤ 2147483647 →
      timestampClean {} (some (to_timestamp d)) now_ts = Except.ok (some d)) ∧
    (∀ now_ts : Int, timestampClean {} (some 0) now_ts =
      Except.ok (some { secs := 0, tzinfo := some TZInfo.utc })) := by
  constructor
  · intro d now_ts htz h0 h31
    obtain ⟨secs, tz⟩ := d
    simp only [PyDatetime.tzinfo] at htz
    subst htz
    simp only [PyDatetime.secs] at h0 h31
    have hts : to_timestamp { secs := secs, tzinfo := some TZInfo.utc } = secs := rfl
    rw [hts]
    by_cases hz : secs = 0
    · subst hz
      simp [timestampClean, timestampRunValidators]
    · simp [timestampClean, timestampRunValidators,
        if_neg (by omega : ¬secs < 0), if_neg (by omega : ¬secs > 2147483647),
        make_aware, utcfromtimestamp, hz]
  · intro now_ts
    simp [timestampClean, timestampRunValidators]

/-- Witness for C3: the round trip applied at the concrete aware UTC datetime
for 2017-01-01 00:00:00. -/
theorem timestampField_roundTrip_witness :
    ({ secs := 1483228800, tzinfo := some TZInfo.utc } : PyDatetime).tzinfo = some TZInfo.utc ∧
    (0 : Int) ≤ 1483228800 ∧ (1483228800 : Int) ≤ 2147483647 ∧
    timestampClean {} (some (to_timestamp { secs := 1483228800, tzinfo := some TZInfo.utc })) 0 =
      Except.ok (some { secs := 1483228800, tzinfo := some TZInfo.utc }) := by
  refine ⟨rfl, by decide, by decide, ?_⟩
  exact timestampField_roundTrip.1 { secs := 1483228800, tzinfo := some TZInfo.utc } 0
    rfl (by decide) (by decide)

/-- C4: for the bounded integer field, cleaning the inclusive bounds succeeds
and cleaning one past either bound raises the corresponding range error; the
positive-integer variant defaults its minimum to 1, or 0 with the with_zero
option; the timestamp field is bounded by 0 and 2147483647, so minus one and
2147483648 raise range errors while the bounds themselves clean. -/
theorem range_boundaries :
    (∀ mn mx : Int, mn ≤ mx →
      (restIntegerClean { min_value := some mn, max_value := some mx } (some mn) =
        Except.ok (some mn)) ∧
      (restIntegerClean { min_value := some mn, max_value := some mx } (some mx) =
        Except.ok (some mx)) ∧
      (restIntegerClean { min_value := some mn, max_value := some mx } (some (mn - 1)) =
        Except.error (Err.range [RangeViolation.min mn])) ∧
      (restIntegerClean { min_value := some mn, max_value := some mx } (some (mx + 1)) =
        Except.error (Err.range [RangeViolation.max mx]))) ∧
    ((mkPositiveIntegerField false Option.none Option.none true Option.none).min_value =
      some 1) ∧
    ((mkPositiveIntegerField true Option.none Option.none true Option.none).min_value =
      some 0) ∧
    (∀ now_ts : Int,
      (timestampClean {} (some 0) now_ts =
        Except.ok (some { secs := 0, tzinfo := some TZInfo.utc })) ∧
      (timestampClean {} (some 2147483647) now_ts =
        Except.ok (some { secs := 2147483647, tzinfo := some TZInfo.utc })) ∧
      (timestampClean {} (some (-1)) now_ts =
        Except.error (Err.range [RangeViolation.min 0])) ∧
      (timestampClean {} (some 2147483648) now_ts =
        Except.error (Err.range [RangeViolation.max 2147483647]))) := by
  refine ⟨?_, by decide, by decide, ?_⟩
  · intro mn mx h
    refine ⟨?_, ?_, ?_, ?_⟩ <;>
      simp [restIntegerClean, intRunValidators,
        if_neg (by omega : ¬mn < mn), if_neg (by omega : ¬mn > mx),
        if_neg (by omega : ¬mx < mn), if_neg (by omega : ¬mx > mx),
        if_pos (by omega : mn - 1 < mn), if_neg (by omega : ¬mn - 1 > mx),
        if_neg (by omega : ¬mx + 1 < mn), if_pos (by omega : mx + 1 > mx)]
  · intro now_ts
    refine ⟨by simp [timestampClean, timestampRunValidators], ?_, ?_, ?_⟩ <;>
      simp [timestampClean, timestampRunValidators, make_aware, utcfromtimestamp]

/-- Witness for C4: the boundary statement applied at the concrete bounds 1
and 10. -/
theorem range_boundaries_witness :
    (1 : Int) ≤ 10 ∧
    restIntegerClean { min_value := some 1, max_value := some 10 } (some 11) =
      Except.error (Err.range [RangeViolation.max 10]) := by
  exact ⟨by decide, (range_boundaries.1 1 10 (by decide)).2.2.2⟩

/-- C5: the array field parses a JSON list, splits a plain string on commas
into strings, coerces every comma item through the integer parse when the
item schema declares integers (failing the whole array when one item fails),
rejects a braced string and a mapping as objects where an array was expected,
and reports malformed JSON as a parse error. -/
theorem arrayField_behaviour :
    (arrayFieldClean {} (ArrayRaw.str "[1,2,3]") =
      Except.ok (some (Json.jarr [Json.jint 1, Json.jint 2, Json.jint 3]))) ∧
    (arrayFieldClean {} (ArrayRaw.str "1,2,3") =
      Except.ok (some (Json.jarr [Json.jstr "1", Json.jstr "2", Json.jstr "3"]))) ∧
    (arrayFieldClean { item_schema := some ItemType.integer } (ArrayRaw.str "1,2,3") =
      Except.ok (some (Json.jarr [Json.jint 1, Json.jint 2, Json.jint 3]))) ∧
    (arrayFieldClean { item_schema := some ItemType.integer } (ArrayRaw.str "1,a,3") =
      Except.error Err.arrayOfIntegers) ∧
    (arrayFieldClean {} (ArrayRaw.str "\x7b\x7d") = Except.error Err.objectNotArray) ∧
    (∀ entries, arrayFieldClean {} (ArrayRaw.dict entries) = Except.error Err.objectNotArray) ∧
    (arrayFieldClean {} (ArrayRaw.str "[1,2,3") = Except.error Err.jsonNotParsed) := by
  exact ⟨rfl, rfl, rfl, rfl, rfl, fun entries => rfl, rfl⟩

/-- C6: contrary to the stated property, the hex field accepts every provided
string, because re.match of the unanchored starred pattern always returns a
(possibly empty) match, so the raise in HexField.validate is unreachable;
in particular the clearly non-hexadecimal string XYZ! is accepted. -/
theorem hexField_validate_never_rejects :
    (∀ s : String, hexFieldClean { required := true } (some s) =
      Except.ok (some (pyStrip s))) ∧
    (hexFieldClean { required := true } (some "XYZ!") = Except.ok (some "XYZ!")) := by
  exact ⟨fun s => rfl, by decide⟩

/-- C7 counterexample: an uppercase UUID string is syntactically a valid UUID,
yet the field rejects it, because the installed pattern only admits lowercase
hex digits; so clean does not return every syntactically valid UUID string
unchanged. -/
theorem uuidField_rejects_uppercase_uuid :
    isSyntacticallyValidUUID upperUUIDString = true ∧
    (regexFieldClean (mkUUIDField true Option.none) (some upperUUIDString)).2 =
      Except.error (Err.patternMismatch uuidPatternText) := by
  exact ⟨by decide, by decide⟩

/-- C7 as amended: a provided string (already free of surrounding whitespace,
which to_python would strip) cleans to itself exactly when it matches the
lowercase hyphenated 8-4-4-4-12 hex pattern, and raises the pattern mismatch
error otherwise. -/
theorem uuidField_lowercase_roundTrip :
    ∀ s : String, pyStrip s = s →
      ((uuidRegexAccepts s = true →
        (regexFieldClean (mkUUIDField true Option.none) (some s)).2 =
          Except.ok (some s)) ∧
       (uuidRegexAccepts s = false →
        (regexFieldClean (mkUUIDField true Option.none) (some s)).2 =
          Except.error (Err.patternMismatch uuidPatternText))) := by
  intro s hs
  constructor <;> intro h <;>
    simp [regexFieldClean, regexFieldValidate, mkUUIDField, hs, h]

/-- Witness for C7: the amended statement applied at a concrete lowercase
canonical UUID string. -/
theorem uuidField_lowercase_roundTrip_witness :
    pyStrip lowerUUIDString = lowerUUIDString ∧
    uuidRegexAccepts lowerUUIDString = true ∧
    (regexFieldClean (mkUUIDField true Option.none) (some lowerUUIDString)).2 =
      Except.ok (some lowerUUIDString) := by
  refine ⟨by decide, by decide, ?_⟩
  exact (uuidField_lowercase_roundTrip lowerUUIDString (by decide)).1 (by decide)

/-- C8 counterexample: a zero-byte pdf file has its extension in the
allow-list and its size below the limit, yet clean rejects it, because the
underlying Django file field refuses empty files unless allow_empty_file is
set; so not every handle with listed extension and size at most the limit
passes. -/
theorem fileField_rejects_empty_file :
    pyLower (splitextExt emptyPdfFile.name) = "pdf" ∧
    (["pdf"].contains "pdf" = true) ∧ emptyPdfFile.size ≤ 100 ∧
    fileFieldClean pdfFileField (some emptyPdfFile) = Except.error Err.emptyFile := by
  exact ⟨by decide, by decide, by decide, by decide⟩

/-- C8 as amended: a named handle of positive size whose lowercased extension
is in the allow-list and whose size is at most the limit passes clean
unchanged; an extension outside the allow-list raises the file type error
carrying the actual extension and the allowed set; a size above the limit
raises the file size error carrying the limit and the actual size; and the
extension comparison lowercases the name, so TEST.PDF is accepted when pdf is
allowed. -/
theorem fileField_validation :
    (∀ (name : String) (size : Nat) (exts : List String) (limit : Nat),
      name ≠ "" → 1 ≤ size →
      ((exts.contains (pyLower (splitextExt name)) = true → size ≤ limit →
        fileFieldClean { required := true, valid_extensions := some exts, max_size := some limit }
          (some { name := name, size := size }) =
          Except.ok (some { name := name, size := size })) ∧
       (exts.contains (pyLower (splitextExt name)) = false →
        fileFieldClean { required := true, valid_extensions := some exts, max_size := some limit }
          (some { name := name, size := size }) =
          Except.error (Err.fileType (pyLower (splitextExt name)) exts)) ∧
       (exts.contains (pyLower (splitextExt name)) = true → limit < size →
        fileFieldClean { required := true, valid_extensions := some exts, max_size := some limit }
          (some { name := name, size := size }) =
          Except.error (Err.fileSize limit size)))) ∧
    (fileFieldClean { required := true, valid_extensions := some ["pdf"] }
      (some upperCaseFile) = Except.ok (some upperCaseFile)) := by
  constructor
  · intro name size exts limit hname hsize
    have h0 : ¬size = 0 := by omega
    refine ⟨?_, ?_, ?_⟩
    · intro hext hlim
      have hmem : pyLower (splitextExt name) ∈ exts := by simpa using hext
      have hnl : ¬limit < size := by omega
      simp [fileFieldClean, hname, h0, hmem, hnl]
    · intro hext
      have hmem : pyLower (splitextExt name) ∉ exts := by simpa using hext
      simp [fileFieldClean, hname, h0, hmem]
    · intro hext hlim
      have hmem : pyLower (splitextExt name) ∈ exts := by simpa using hext
      simp [fileFieldClean, hname, h0, hmem, hlim]
  · decide

/-- Witness for C8: the acceptance branch of the amended statement applied at
a concrete four-byte pdf file under a limit of 100 bytes. -/
theorem fileField_validation_witness :
    ("test.pdf" ≠ "") ∧ 1 ≤ 4 ∧
    (["pdf"].contains (pyLower (splitextExt "test.pdf")) = true) ∧ 4 ≤ 100 ∧
    fileFieldClean { required := true, valid_extensions := some ["pdf"], max_size := some 100 }
      (some { name := "test.pdf", size := 4 }) =
      Except.ok (some { name := "test.pdf", size := 4 }) := by
  refine ⟨by decide, by decide, by decide, by decide, ?_⟩
  exact (fileField_validation.1 "test.pdf" 4 ["pdf"] 100 (by decide) (by decide)).1
    (by decide) (by decide)

/-- C9 counterexample: cleaning a provided value through a regex field does
not leave the field definition unchanged: validate overwrites the _match
cache of the instance, here from empty to the matched text. -/
theorem regexField_clean_mutates_match_cache :
    dotStarField.matchCache = Option.none ∧
    (regexFieldClean dotStarField (some "abc")).1.matchCache = some "abc" ∧
    (regexFieldClean dotStarField (some "abc")).1.matchCache ≠ dotStarField.matchCache := by
  exact ⟨rfl, rfl, by decide⟩

/-- Helper: a regex field clean only ever rewrites the match cache; every
other component of the field definition is preserved. -/
theorem regexFieldClean_fst (f : RegexField) (v : Option String) :
    (regexFieldClean f v).1 =
      { f with matchCache := (regexFieldClean f v).1.matchCache } := by
  obtain ⟨req, init, reg, pat, mc⟩ := f
  cases v with
  | none =>
    by_cases hr : req <;> simp [regexFieldClean, hr]
  | some s =>
    cases reg with
    | none => simp [regexFieldClean, regexFieldValidate]
    | some m =>
      by_cases h : (m (pyStrip s)).isSome <;>
        simp [regexFieldClean, regexFieldValidate, h]

/-- Helper: the cleaned value returned by a regex field does not depend on
the match cache component of the field definition. -/
theorem regexFieldClean_cache_irrelevant (f : RegexField) (m : Option String)
    (w : Option String) :
    (regexFieldClean { f with matchCache := m } w).2 = (regexFieldClean f w).2 := by
  obtain ⟨req, init, reg, pat, mc⟩ := f
  cases w with
  | none =>
    by_cases hr : req <;> simp [regexFieldClean, hr]
  | some s =>
    cases reg with
    | none => simp [regexFieldClean, regexFieldValidate]
    | some mf =>
      by_cases h : (mf (pyStrip s)).isSome <;>
        simp [regexFieldClean, regexFieldValidate, h]

/-- C9 as amended: the cleaned value is a function of the field definition
and the raw value alone, and a clean invocation preserves every component of
the field definition except the regex match cache, which validate overwrites;
since the cleaned value never depends on that cache, successive invocations
on the same field definition remain order-insensitive in the values they
return even though the cache changes. -/
theorem regexField_clean_value_pure :
    ∀ (f : RegexField) (v : Option String),
      ((regexFieldClean f v).1.required = f.required ∧
       (regexFieldClean f v).1.initial = f.initial ∧
       (regexFieldClean f v).1.regex = f.regex ∧
       (regexFieldClean f v).1.pat = f.pat) ∧
      (∀ w : Option String,
        (regexFieldClean (regexFieldClean f v).1 w).2 = (regexFieldClean f w).2) := by
  intro f v
  constructor
  · rw [regexFieldClean_fst f v]
    exact ⟨rfl, rfl, rfl, rfl⟩
  · intro w
    rw [regexFieldClean_fst f v]
    exact regexFieldClean_cache_irrelevant f (regexFieldClean f v).1.matchCache w

/-- C10 counterexample: the UUID field is a pattern-checking string field
built on the empty-string fix, yet a provided empty string does not pass its
clean: the RegexField pattern check runs on every non-None value, and the
empty string does not match the UUID pattern. -/
theorem uuidField_rejects_empty_string :
    (regexFieldClean (mkUUIDField true Option.none) (some "")).2 =
      Except.error (Err.patternMismatch uuidPatternText) := by
  decide

/-- C10 as amended: for the color field and the hex field, a provided empty
string passes clean and is returned as-is even with required on: the empty
string is not classified as missing, the color pattern check is skipped for
falsy coerced values, and the hex pattern matches vacuously. -/
theorem colorField_hexField_accept_empty_string :
    colorFieldClean { required := true } (some "") = Except.ok (some "") ∧
    hexFieldClean { required := true } (some "") = Except.ok (some "") := by
  exact ⟨rfl, rfl⟩

/-- C1 counterexample: a file field that is required and carries a configured
initial returns that initial for an absent value instead of raising the
Required error, because the underlying Django file field treats the initial
as a previously uploaded file that satisfies requiredness. -/
theorem fileField_required_initial_returns_initial :
    requiredWithInitialFileField.required = true ∧
    fileFieldClean requiredWithInitialFileField Option.none =
      Except.ok (some { name := "test.txt", size := 4 }) ∧
    fileFieldClean requiredWithInitialFileField Option.none ≠
      Except.error Err.required := by
  exact ⟨rfl, rfl, by decide⟩

/-- C1 as amended: for every embedded field type, cleaning an absent value
with required on and no initial raises the Required error; with required off
and a configured initial the initial is returned exactly (for the timestamp
field this holds when the initial is configured as an aware UTC datetime,
a numeric initial being returned converted to its datetime); with required
off and no initial the empty representation none is returned without error;
except that the file field returns a configured initial even when required,
raising Required only when it has none. -/
theorem clean_absent_value_catalog :
    (∀ f : RestCharField, restCharClean f Option.none =
      (if f.required then Except.error Err.required else Except.ok f.initial)) ∧
    (∀ f : RestBooleanField, restBooleanClean f RawValue.none =
      (if f.required then Except.error Err.required else Except.ok f.initial)) ∧
    (∀ f : RestIntegerField, restIntegerClean f Option.none =
      (if f.required then Except.error Err.required else Except.ok f.initial)) ∧
    (∀ f : ColorField, colorFieldClean f Option.none =
      (if f.required then Except.error Err.required else Except.ok f.initial)) ∧
    (∀ f : HexField, hexFieldClean f Option.none =
      (if f.required then Except.error Err.required else Except.ok f.initial)) ∧
    (∀ f : ArrayField, arrayFieldClean f ArrayRaw.none =
      (if f.required then Except.error Err.required else Except.ok f.initial)) ∧
    (∀ f : RegexField, regexFieldClean f Option.none =
      (f, if f.required then Except.error Err.required else Except.ok f.initial)) ∧
    (∀ (init : Option TimestampInitial) (fut : Bool) (n : Int),
      timestampClean (mkTimestampField true init fut) Option.none n =
        Except.error Err.required) ∧
    (∀ (fut : Bool) (n : Int),
      timestampClean (mkTimestampField false Option.none fut) Option.none n =
        Except.ok Option.none) ∧
    (∀ (d : PyDatetime) (fut : Bool) (n : Int), d.tzinfo = some TZInfo.utc →
      timestampClean (mkTimestampField false (some (TimestampInitial.dt d)) fut)
        Option.none n = Except.ok (some d)) ∧
    (fileFieldClean { required := true } Option.none = Except.error Err.required) ∧
    (∀ (file : UploadedFile) (req : Bool),
      fileFieldClean { required := req, initial := some file } Option.none =
        Except.ok (some file)) ∧
    (∀ req : Bool, fileFieldClean { required := req, initial := Option.none } Option.none =
      (if req then Except.error Err.required else Except.ok Option.none)) := by
  refine ⟨fun f => rfl, fun f => rfl, fun f => rfl, fun f => rfl, fun f => rfl,
    fun f => rfl, ?_, fun init fut n => rfl, fun fut n => rfl, ?_, rfl,
    fun file req => rfl, fun req => rfl⟩
  · intro f
    by_cases hr : f.required <;> simp [regexFieldClean, hr]
  · intro d fut n htz
    obtain ⟨secs, tz⟩ := d
    simp only [PyDatetime.tzinfo] at htz
    subst htz
    by_cases hz : secs = 0
    · subst hz
      simp [mkTimestampField, timestampClean, to_timestamp, astimezone]
    · simp [mkTimestampField, timestampClean, to_timestamp, astimezone,
        make_aware, utcfromtimestamp, hz]

/-- Witness for C1: the timestamp part of the catalog applied at the concrete
aware UTC epoch-plus-five datetime configured as the initial. -/
theorem clean_absent_value_catalog_witness :
    ({ secs := 5, tzinfo := some TZInfo.utc } : PyDatetime).tzinfo = some TZInfo.utc ∧
    timestampClean
      (mkTimestampField false
        (some (TimestampInitial.dt { secs := 5, tzinfo := some TZInfo.utc })) true)
      Option.none 0 =
      Except.ok (some { secs := 5, tzinfo := some TZInfo.utc }) := by
  exact ⟨rfl, clean_absent_value_catalog.2.2.2.2.2.2.2.2.2.1
    { secs := 5, tzinfo := some TZInfo.utc } true 0 rfl⟩

end DjangoRestFormFields
